import Mathlib

/-!
Verification development for the SpeechtoText repository.

The definitions below are a shallow embedding of the repository's core:
the stubbed recognition gateway (src/services/VoiceApi.ts), the capture
session (src/services/AudioService.ts), the interaction controller
(the HomeScreen handlers), the waveform buffer and the autocorrelation
pitch estimator (src/components/audio-visualizer.tsx).

JavaScript numbers are modelled as exact rationals; the sources of
nondeterminism of the code (Math.random draws, Date.now, the live mock
transcript index) are gathered into an explicit oracle argument.
-/

/-! ## Recognition gateway (src/services/VoiceApi.ts) -/

/-- The four test scenarios of the gateway. -/
inductive Scenario
  | success
  | clarify
  | networkError
  | serverError
deriving DecidableEq

/-- The context map of a request.  The source uses a free-form record;
only the two keys the code reads are modelled. -/
structure VoiceContext where
  previousPrompt : Option String
  selectedTime : Option String
deriving DecidableEq

/-- ProcessVoiceInput of VoiceApi.ts. -/
structure ProcessVoiceInput where
  audioUri : String
  mimeType : String
  clientTs : String
  context : Option VoiceContext
deriving DecidableEq

/-- ProcessVoiceResult of VoiceApi.ts. -/
inductive ProcessVoiceResult
  | ok (transcript : String)
  | clarification (prompt : String)
deriving DecidableEq

/-- Error codes of ProcessVoiceError. -/
inductive ErrorCode
  | NETWORK
  | SERVER
deriving DecidableEq

/-- ProcessVoiceError of VoiceApi.ts (the thrown object). -/
structure ProcessVoiceError where
  code : ErrorCode
  message : String
deriving DecidableEq

/-- The mutable fields of class VoiceApiImpl. -/
structure GatewayState where
  scenario : Scenario
  completeNextAsSuccess : Bool
  liveActive : Bool
deriving DecidableEq

/-- The ambient nondeterminism of one controller step: the Math.random
draws of processVoice and stopLiveRecognition, and the clock reads. -/
structure Oracle where
  transcriptIdx : Fin 8
  promptIdx : Fin 4
  liveIdx : Fin 6
  clarifyDraw : Bool
  now : Nat
  nowIso : String
deriving DecidableEq

/-- The MOCK_TRANSCRIPTS pool of processVoice. -/
def MOCK_TRANSCRIPTS : List String :=
  ["Hey, remind me to call Alex tomorrow at 3 PM.",
   "Set an alarm for 7 AM tomorrow morning.",
   "What is the weather like this weekend?",
   "Add milk and eggs to my shopping list.",
   "Play some relaxing music from my favorites playlist.",
   "Send a message to John saying I’ll be late.",
   "Turn off the living room lights.",
   "Open my notes for today’s meeting."]

/-- The PROMPTS pool of the 10-percent clarification branch. -/
def PROMPTS : List String :=
  ["Can you repeat that?",
   "What exactly do you mean?",
   "Should I save that reminder?",
   "Do you want me to schedule it now?"]

/-- The MOCK_TRANSCRIPTS pool of stopLiveRecognition. -/
def LIVE_MOCK_TRANSCRIPTS : List String :=
  ["Hey, remind me to call Alex tomorrow at 3 PM.",
   "Set an alarm for 7 AM tomorrow morning.",
   "What is the weather like this weekend?",
   "Add milk and eggs to my shopping list.",
   "Play some relaxing music from my favorites playlist.",
   "What time should I set it for?"]

/-- Constructor of VoiceApiImpl: the given scenario, both flags cleared. -/
def initGateway (s : Scenario) : GatewayState :=
  { scenario := s, completeNextAsSuccess := false, liveActive := false }

/-- setScenario: switches the scenario and clears the follow-up flag. -/
def setScenario (st : GatewayState) (s : Scenario) : GatewayState :=
  { st with scenario := s, completeNextAsSuccess := false }

/-- startLiveRecognition: flips the live flag. -/
def startLiveRecognition (st : GatewayState) : GatewayState :=
  { st with liveActive := true }

/-- stopLiveRecognition: clears the live flag; the returned transcript is
drawn from LIVE_MOCK_TRANSCRIPTS by the oracle (see liveTranscript). -/
def stopLiveRecognition (st : GatewayState) : GatewayState :=
  { st with liveActive := false }

/-- The transcript returned by stopLiveRecognition: a random element of
its six-phrase pool (the random index is always in range in the source). -/
def liveTranscript (o : Oracle) : String :=
  LIVE_MOCK_TRANSCRIPTS.get ⟨o.liveIdx.val, o.liveIdx.isLt⟩

/-- destroy: clears the live flag. -/
def destroyGateway (st : GatewayState) : GatewayState :=
  { st with liveActive := false }

/-- processVoice of VoiceApiImpl, translated branch for branch.  A thrown
ProcessVoiceError becomes the Except.error case; the second component is
the gateway state after the call.  JavaScript truthiness of
input.context?.selectedTime and of input.audioUri (the empty string is
falsy) is made explicit. -/
def processVoice (st : GatewayState) (input : ProcessVoiceInput) (o : Oracle) :
    Except ProcessVoiceError ProcessVoiceResult × GatewayState :=
  if st.completeNextAsSuccess then
    (Except.ok (ProcessVoiceResult.ok ("Okay — got it (follow-up).")),
     { st with completeNextAsSuccess := false })
  else
    match st.scenario with
    | Scenario.clarify =>
      match input.context.bind (fun c => c.selectedTime) with
      | some t =>
        if t = "" then
          (Except.ok (ProcessVoiceResult.clarification ("What time should I set it for?")),
           { st with completeNextAsSuccess := true })
        else
          (Except.ok (ProcessVoiceResult.ok ("Alarm set for " ++ t ++ ".")), st)
      | none =>
        (Except.ok (ProcessVoiceResult.clarification ("What time should I set it for?")),
         { st with completeNextAsSuccess := true })
    | Scenario.networkError =>
      (Except.error { code := ErrorCode.NETWORK, message := "Network error. Please try again." }, st)
    | Scenario.serverError =>
      (Except.error { code := ErrorCode.SERVER, message := "Something went wrong. Please try again." }, st)
    | Scenario.success =>
      if input.audioUri = "" then
        (Except.ok (ProcessVoiceResult.ok ("")), st)
      else if o.clarifyDraw then
        (Except.ok (ProcessVoiceResult.clarification
            (PROMPTS.get ⟨o.promptIdx.val, o.promptIdx.isLt⟩)),
         { st with completeNextAsSuccess := true })
      else
        (Except.ok (ProcessVoiceResult.ok
            (MOCK_TRANSCRIPTS.get ⟨o.transcriptIdx.val, o.transcriptIdx.isLt⟩)), st)

/-- The gateway states that can actually arise: a fresh instance, closed
under every public operation of the class. -/
inductive GReachable : GatewayState → Prop
  | init (s : Scenario) : GReachable (initGateway s)
  | set {st : GatewayState} (s : Scenario) :
      GReachable st → GReachable (setScenario st s)
  | proc {st : GatewayState} (i : ProcessVoiceInput) (o : Oracle) :
      GReachable st → GReachable (processVoice st i o).2
  | startLive {st : GatewayState} :
      GReachable st → GReachable (startLiveRecognition st)
  | stopLive {st : GatewayState} :
      GReachable st → GReachable (stopLiveRecognition st)
  | destroy {st : GatewayState} :
      GReachable st → GReachable (destroyGateway st)

/-! ## Capture session (src/services/AudioService.ts)

The platform capabilities (expo-av recording handles, the file system)
are modelled as an explicit environment of total oracles; fallible
capability calls return Except and the code decides what to do with a
failure. -/

/-- Result of FileSystem.getInfoAsync. -/
structure FileInfo where
  fsExists : Bool
  size : Option Nat
deriving DecidableEq

/-- The observable fields of an expo-av recording handle: its URI (null
until assigned) and the duration its status reports. -/
structure RecHandle where
  uri : Option String
  durationMillis : Option Nat
deriving DecidableEq

/-- Platform environment of AudioService: file-system info, best-effort
stop/unload and deletion (the latter two can fail and the service
decides whether to swallow the failure). -/
structure AudioEnv where
  getInfo : String → FileInfo
  stopUnload : RecHandle → Except String Unit
  deleteFile : String → Except String Unit

/-- The mutable state of class AudioService: the current recording. -/
structure AudioState where
  recording : Option RecHandle
deriving DecidableEq

/-- The value stopRecording resolves with. -/
structure StopResult where
  uri : String
  mimeType : String
  duration : Option Nat
deriving DecidableEq

/-- The fixed mime type of recordings. -/
def RECORDING_MIME : String := "audio/m4a"

/-- stopRecording of AudioService.ts, branch for branch.  Throws (as
Except.error) when there is no active recording, when the handle has no
usable URI (JavaScript truthiness: null or empty), and when the
finalized file does not exist or has zero size; on every exit path with
an active recording the internal handle is cleared.  The stop/unload of
the handle is best-effort: a failure falls back to safeStopAndUnload,
which swallows everything, so it cannot abort the call. -/
def stopRecording (env : AudioEnv) (st : AudioState) :
    Except String StopResult × AudioState :=
  match st.recording with
  | none => (Except.error ("No active recording"), st)
  | some handle =>
    let _ := env.stopUnload handle
    match handle.uri with
    | none => (Except.error ("Recording file missing"), { recording := none })
    | some uri =>
      if uri = "" then
        (Except.error ("Recording file missing"), { recording := none })
      else
        let info := env.getInfo uri
        if info.fsExists = false ∨ info.size.getD 0 = 0 then
          (Except.error ("Recorded file is missing or empty"), { recording := none })
        else
          (Except.ok { uri := uri, mimeType := RECORDING_MIME, duration := handle.durationMillis },
           { recording := none })

/-- cancelRecording of AudioService.ts: a no-op without an active
recording; otherwise best-effort stop/unload and artifact deletion with
every capability failure discarded, then the handle is cleared.  The
return type has no error case: cancel never raises. -/
def cancelRecording (env : AudioEnv) (st : AudioState) : AudioState :=
  match st.recording with
  | none => st
  | some handle =>
    let _ := env.stopUnload handle
    let _ :=
      match handle.uri with
      | some uri =>
        if (env.getInfo uri).fsExists then env.deleteFile uri else Except.ok ()
      | none => Except.ok ()
    { recording := none }

/-! ## Interaction controller (HomeScreen of the app) -/

/-- The UiState union of the HomeScreen. -/
inductive UiState
  | idle
  | listening
  | processing
  | clarification
  | error
  | cancelled
deriving DecidableEq

/-- One entry of the transcript history. -/
structure RecordingEntry where
  transcript : String
  uri : String
  timestamp : Nat
  durationSec : Option Nat
deriving DecidableEq

/-- The React state of the HomeScreen (state, recordings, errorMessage,
clarifyPrompt, scenario) together with the liveModeRef ref. -/
structure CtrlState where
  phase : UiState
  recordings : List RecordingEntry
  errorMessage : Option String
  clarifyPrompt : Option String
  scenario : Scenario
  liveMode : Bool
deriving DecidableEq

/-- The whole system the handlers touch: controller, capture session and
gateway singleton. -/
structure SysState where
  ctrl : CtrlState
  audio : AudioState
  gw : GatewayState
deriving DecidableEq

/-- The context processRecording builds for a stop-triggered gateway
call: the previous prompt, only when the render-time phase was
clarification and the stored prompt is truthy (non-null, non-empty). -/
def stopContext (cs : CtrlState) : Option VoiceContext :=
  match cs.clarifyPrompt with
  | some p =>
    if cs.phase = UiState.clarification ∧ p ≠ "" then
      some { previousPrompt := some p, selectedTime := none }
    else none
  | none => none

/-- The ProcessVoiceInput processRecording submits after a file stop. -/
def mkStopInput (cs : CtrlState) (res : StopResult) (o : Oracle) : ProcessVoiceInput :=
  { audioUri := res.uri, mimeType := res.mimeType, clientTs := o.nowIso,
    context := stopContext cs }

/-- Result of one handleStop run: the new system state and whether the
success cue was played. -/
structure StopOutcome where
  sys : SysState
  cuePlayed : Bool
deriving DecidableEq

/-- Math.round of a millisecond count divided by 1000 (floor of x + 1/2
on a nonnegative number). -/
def roundToSec (d : Nat) : Nat := (d + 500) / 1000

/-- handleStop of the HomeScreen, branch for branch.  Live mode: play the
cue unconditionally, stop live recognition, prepend the live transcript
(with its empty-string fallback) and return to idle.  File mode: stop the
recording (failure, including a missing artifact URI, lands in the outer
catch: error message, error phase, live flag cleared), then submit to the
gateway; a thrown gateway error lands in the inner catch (error message
and error phase only); an Ok result prepends the transcript record,
clears the prompt, plays the cue only under the success scenario and
returns to idle; a Clarification stores the prompt and moves to the
clarification phase.  A missing duration is modelled as a missing
durationSec (the source stores the NaN of rounding undefined). -/
def handleStop (env : AudioEnv) (o : Oracle) (s : SysState) : StopOutcome :=
  if s.ctrl.liveMode then
    let t := liveTranscript o
    let tr := if t = "" then "(no speech detected)" else t
    let entry : RecordingEntry :=
      { transcript := tr, uri := "", timestamp := o.now, durationSec := none }
    let ctrl₂ : CtrlState :=
      { s.ctrl with
        phase := UiState.idle, recordings := entry :: s.ctrl.recordings,
        clarifyPrompt := none, liveMode := false }
    { sys := { s with ctrl := ctrl₂, gw := stopLiveRecognition s.gw }, cuePlayed := true }
  else
    match stopRecording env s.audio with
    | (Except.error e, audio₂) =>
      let msg := if e = "" then "Could not process recording. Please try again." else e
      let ctrl₂ : CtrlState :=
        { s.ctrl with
          phase := UiState.error, errorMessage := some msg, liveMode := false }
      { sys := { s with audio := audio₂, ctrl := ctrl₂ }, cuePlayed := false }
    | (Except.ok res, audio₂) =>
      if res.uri = "" then
        let ctrl₂ : CtrlState :=
          { s.ctrl with
            phase := UiState.error,
            errorMessage := some ("Recording failed - no audio file created"),
            liveMode := false }
        { sys := { s with audio := audio₂, ctrl := ctrl₂ }, cuePlayed := false }
      else
        match processVoice s.gw (mkStopInput s.ctrl res o) o with
        | (Except.error err, gw₂) =>
          let ctrl₂ : CtrlState :=
            { s.ctrl with phase := UiState.error, errorMessage := some err.message }
          { sys := { s with audio := audio₂, gw := gw₂, ctrl := ctrl₂ }, cuePlayed := false }
        | (Except.ok (ProcessVoiceResult.ok t), gw₂) =>
          let entry : RecordingEntry :=
            { transcript := t, uri := res.uri, timestamp := o.now,
              durationSec := res.duration.map roundToSec }
          let ctrl₂ : CtrlState :=
            { s.ctrl with
              phase := UiState.idle, recordings := entry :: s.ctrl.recordings,
              clarifyPrompt := none }
          { sys := { s with audio := audio₂, gw := gw₂, ctrl := ctrl₂ },
            cuePlayed := if s.ctrl.scenario = Scenario.success then true else false }
        | (Except.ok (ProcessVoiceResult.clarification p), gw₂) =>
          let ctrl₂ : CtrlState :=
            { s.ctrl with phase := UiState.clarification, clarifyPrompt := some p }
          { sys := { s with audio := audio₂, gw := gw₂, ctrl := ctrl₂ }, cuePlayed := false }

/-- handleCancel of the HomeScreen, branch for branch.  Live mode stops
live recognition (failures logged and swallowed); file mode tries
stopRecording and falls back to cancelRecording on failure (both
failures swallowed).  Afterwards the prompt, the error message and the
live flag are cleared and the phase returns to idle; the catch-all
branch performs the same resets, so the handler always lands there. -/
def handleCancel (env : AudioEnv) (s : SysState) : SysState :=
  let s₁ :=
    if s.ctrl.liveMode then
      { s with gw := stopLiveRecognition s.gw }
    else
      match stopRecording env s.audio with
      | (Except.ok _, audio₂) => { s with audio := audio₂ }
      | (Except.error _, audio₂) => { s with audio := cancelRecording env audio₂ }
  let ctrl₂ : CtrlState :=
    { s₁.ctrl with
      phase := UiState.idle, clarifyPrompt := none,
      errorMessage := none, liveMode := false }
  { s₁ with ctrl := ctrl₂ }

/-! ## Waveform buffer and amplitude normalization
(src/components/audio-visualizer.tsx, updateWaveform) -/

/-- The fixed capacity of the waveform buffers. -/
def WAVE_POINTS : Nat := 60

/-- One per-tick push of updateWaveform: append the (amplitude,
frequency) sample, then drop the front sample when the buffer length
exceeds WAVE_POINTS (the source shifts both parallel arrays once). -/
def pushSample (buf : List (ℚ × ℚ)) (s : ℚ × ℚ) : List (ℚ × ℚ) :=
  let b := buf ++ [s]
  if WAVE_POINTS < b.length then b.tail else b

/-- The buffer contents after a sequence of ticks starting from the
empty buffer. -/
def runTicks (samples : List (ℚ × ℚ)) : List (ℚ × ℚ) :=
  samples.foldl pushSample []

/-- The native-path amplitude of updateWaveform: Math.max of 0 and
(metering + 160) / 160.  There is no upper clamp in the source. -/
def normalizedMeterOf (metering : ℚ) : ℚ :=
  max 0 ((metering + 160) / 160)

/-- Modelled from the spec (section 4.4): the metering value converted
via (dB + 160) / 160 and clamped to the interval from 0 to 1.  Kept
separate from normalizedMeterOf so the two can be compared. -/
def specClampedAmplitude (metering : ℚ) : ℚ :=
  min 1 (max 0 ((metering + 160) / 160))

/-! ## Pitch estimator (autoCorrelate of audio-visualizer.tsx)

Exact rational arithmetic replaces JavaScript floats.  The source
computes Math.sqrt of the mean square and compares it with 0.01; since
both sides are nonnegative this is the comparison of the mean square
with 1/10000 performed here, and for an empty buffer the source's
NaN comparison is false, which the length guard reproduces.  Array reads
that can fall outside the bounds in the source (the while scan and the
parabolic interpolation) go through option-valued accessors; a
comparison or arithmetic on an absent value behaves like the source's
comparisons with undefined and NaN (comparison false, refinement
skipped). -/

/-- The mean square of the window (the square of the rms the source
compares with the 0.01 silence threshold). -/
def rmsSq (buffer : List ℚ) : ℚ :=
  (buffer.map (fun v => v * v)).sum / buffer.length

/-- The trimming amplitude threshold (0.2 in the source). -/
def thres : ℚ := 1 / 5

/-- The first scan: the least index i with i below SIZE / 2 whose sample
has absolute value below the threshold; 0 when the scan never breaks.
The real-valued bound i < SIZE / 2 on integer i is i < ceil (SIZE / 2). -/
def trimFrontIndex (buffer : List ℚ) : Nat :=
  (((List.range ((buffer.length + 1) / 2)).find?
      (fun i => decide (|buffer.getD i 0| < thres)))).getD 0

/-- The second scan: for the least i from 1 (below SIZE / 2) whose
sample at SIZE - i has absolute value below the threshold, the value
SIZE - i; SIZE - 1 when the scan never breaks. -/
def trimBackIndex (buffer : List ℚ) : Nat :=
  match (List.range' 1 ((buffer.length + 1) / 2 - 1)).find?
      (fun i => decide (|buffer.getD (buffer.length - i) 0| < thres)) with
  | some i => buffer.length - i
  | none => buffer.length - 1

/-- buffer.slice(r1, r2): drop r1 then keep r2 - r1 samples. -/
def trimmedBuffer (buffer : List ℚ) : List ℚ :=
  (buffer.drop (trimFrontIndex buffer)).take (trimBackIndex buffer - trimFrontIndex buffer)

/-- The autocorrelation sequence c of the trimmed window:
c i = sum over j below newSize - i of b j * b (j + i).  Every access is
in bounds, so the default of getD is never used. -/
def autocorrSeq (b : List ℚ) : List ℚ :=
  (List.range b.length).map (fun i =>
    ((List.range (b.length - i)).map (fun j => b.getD j 0 * b.getD (j + i) 0)).sum)

/-- The while scan for the first dip: starting at d, advance while
c d is greater than c (d + 1); a read past the end behaves like the
source's comparison with undefined, which is false and stops the scan.
The fuel starts at the array length, which the stability theorem below
shows is enough for the scan to have stopped on its own. -/
def findDipAux (c : List ℚ) : Nat → Nat → Nat
  | 0, d => d
  | fuel + 1, d =>
    match c.get? d, c.get? (d + 1) with
    | some x, some y => if x > y then findDipAux c fuel (d + 1) else d
    | _, _ => d

/-- The dip index the source's while loop computes from d = 0. -/
def findDip (c : List ℚ) : Nat := findDipAux c c.length 0

/-- The maximum scan: over i from d below c.length, track the greatest
c i and its position, starting from maxval = -1, maxpos = -1 (so the
position stays -1 when the range is empty or every value is at most -1). -/
def maxScan (c : List ℚ) (d : Nat) : ℚ × Int :=
  (List.range' d (c.length - d)).foldl
    (fun mv i => if c.getD i 0 > mv.1 then (c.getD i 0, (i : Int)) else mv)
    (-1, -1)

/-- Integer-indexed read of the autocorrelation array: none outside the
bounds (the source reads undefined there). -/
def cgetI (c : List ℚ) (i : Int) : Option ℚ :=
  if 0 ≤ i then c.get? i.toNat else none

/-- The parabolic refinement of the coarse period: with the three
centered reads all in bounds and the curvature coefficient a nonzero,
T0 - b / (2 a); otherwise T0 unchanged — an out-of-bounds read makes the
source's coefficient NaN, which its truthiness guard rejects, and a = 0
is rejected by the same guard. -/
def refineT0 (c : List ℚ) (T0 : Int) : ℚ :=
  match cgetI c (T0 - 1), cgetI c T0, cgetI c (T0 + 1) with
  | some x1, some x2, some x3 =>
    let a := (x1 + x3 - 2 * x2) / 2
    let b := (x3 - x1) / 2
    if a ≠ 0 then (T0 : ℚ) - b / (2 * a) else (T0 : ℚ)
  | _, _, _ => (T0 : ℚ)

/-- The final frequency guard: reject nonpositive values and values
above 5000.  The source also rejects non-finite values; those arise only
from division by zero, which the rational model maps to 0, already
rejected here, so the accepted set is unchanged. -/
def pitchGuard (freq : ℚ) : Option ℚ :=
  if freq ≤ 0 ∨ 5000 < freq then none else some freq

/-- Everything of autoCorrelate after the silence check: trim, build the
autocorrelation, scan for the dip and then for the peak, reject a peak at
lag zero, refine, convert to frequency and guard it. -/
def autoCorrelateCore (buffer : List ℚ) (sampleRate : ℚ) : Option ℚ :=
  let b := trimmedBuffer buffer
  let c := autocorrSeq b
  let maxpos := (maxScan c (findDip c)).2
  if maxpos = 0 then none
  else pitchGuard (sampleRate / refineT0 c maxpos)

/-- autoCorrelate of audio-visualizer.tsx: the silence check (see the
section comment for the squared form and the empty-buffer guard),
then the core pipeline. -/
def autoCorrelate (buffer : List ℚ) (sampleRate : ℚ) : Option ℚ :=
  if 0 < buffer.length ∧ rmsSq buffer < 1 / 10000 then none
  else autoCorrelateCore buffer sampleRate

/-! ## Concrete fixtures used by the witness theorems -/

/-- A platform environment whose file system reports one kilobyte for
every path and whose capability calls succeed. -/
def envDemo : AudioEnv :=
  { getInfo := fun _ => { fsExists := true, size := some 1024 },
    stopUnload := fun _ => Except.ok (),
    deleteFile := fun _ => Except.ok () }

/-- A recording handle with a URI and a reported duration. -/
def handleDemo : RecHandle :=
  { uri := some ("file:///rec.m4a"), durationMillis := some 1234 }

/-- A fixed oracle: first transcript, no spontaneous clarification. -/
def oracleDemo : Oracle :=
  { transcriptIdx := 0, promptIdx := 0, liveIdx := 0,
    clarifyDraw := false, now := 0, nowIso := "" }

/-- A system state: idle controller in the success scenario, file mode,
one active recording, fresh gateway. -/
def sysDemo : SysState :=
  { ctrl := { phase := UiState.idle, recordings := [], errorMessage := none,
              clarifyPrompt := none, scenario := Scenario.success, liveMode := false },
    audio := { recording := some handleDemo },
    gw := initGateway Scenario.success }

/-! ## Theorems on the gateway -/

/-- Step lemma: whenever a processVoice call leaves the follow-up flag
armed, the scenario of the resulting state is clarify or success, because
only those two branches arm the flag. -/
theorem processVoice_armed_scenario (st : GatewayState) (i : ProcessVoiceInput) (o : Oracle) :
    (processVoice st i o).2.completeNextAsSuccess = true →
    (processVoice st i o).2.scenario = Scenario.clarify ∨
      (processVoice st i o).2.scenario = Scenario.success := by
  unfold processVoice
  by_cases hflag : st.completeNextAsSuccess = true
  · simp [hflag]
  · rw [if_neg hflag]
    rcases hsc : st.scenario with _ | _ | _ | _
    · by_cases huri : i.audioUri = "" <;>
        by_cases hd : o.clarifyDraw = true <;>
          simp [hsc, huri, hd, hflag]
    · rcases hctx : i.context.bind (fun c => c.selectedTime) with _ | t
      · simp [hctx, hsc]
      · by_cases ht : t = "" <;> simp [hctx, ht, hsc, hflag]
    · simp [hsc, hflag]
    · simp [hsc, hflag]

/-- Invariant: in every reachable gateway state, an armed follow-up flag
implies the scenario is clarify or success. -/
theorem greachable_flag_scenario {st : GatewayState} (h : GReachable st) :
    st.completeNextAsSuccess = true →
    st.scenario = Scenario.clarify ∨ st.scenario = Scenario.success := by
  induction h with
  | init s => intro hf; simp [initGateway] at hf
  | set s hr ih => intro hf; simp [setScenario] at hf
  | proc i o hr ih => exact processVoice_armed_scenario _ i o
  | startLive hr ih => exact ih
  | stopLive hr ih => exact ih
  | destroy hr ih => exact ih

/-- Claim C1: with the scenario set to clarify and the follow-up flag
disarmed, a process call whose context has no selectedTime returns a
Clarification with exactly the fixed prompt and arms the flag; the
immediately following process call, for any input and any random draws,
returns Ok with exactly the follow-up transcript and disarms the flag. -/
theorem clarify_then_followUp
    (st : GatewayState) (i₁ i₂ : ProcessVoiceInput) (o₁ o₂ : Oracle)
    (hs : st.scenario = Scenario.clarify)
    (hf : st.completeNextAsSuccess = false)
    (hctx : i₁.context.bind (fun c => c.selectedTime) = none) :
    processVoice st i₁ o₁ =
      (Except.ok (ProcessVoiceResult.clarification ("What time should I set it for?")),
       { st with completeNextAsSuccess := true }) ∧
    processVoice { st with completeNextAsSuccess := true } i₂ o₂ =
      (Except.ok (ProcessVoiceResult.ok ("Okay — got it (follow-up).")),
       { st with completeNextAsSuccess := false }) := by
  constructor
  · unfold processVoice
    rw [hf]
    simp [hs, hctx]
  · unfold processVoice
    simp

/-- Witness for clarify_then_followUp at a concrete state and inputs. -/
theorem clarify_then_followUp_witness :
    processVoice (initGateway Scenario.clarify)
        { audioUri := "file:///r.m4a", mimeType := "audio/m4a", clientTs := "", context := none }
        { transcriptIdx := 0, promptIdx := 0, liveIdx := 0,
          clarifyDraw := false, now := 0, nowIso := "" } =
      (Except.ok (ProcessVoiceResult.clarification ("What time should I set it for?")),
       { initGateway Scenario.clarify with completeNextAsSuccess := true }) ∧
    processVoice { initGateway Scenario.clarify with completeNextAsSuccess := true }
        { audioUri := "", mimeType := "text/plain", clientTs := "", context := none }
        { transcriptIdx := 0, promptIdx := 0, liveIdx := 0,
          clarifyDraw := true, now := 0, nowIso := "" } =
      (Except.ok (ProcessVoiceResult.ok ("Okay — got it (follow-up).")),
       { initGateway Scenario.clarify with completeNextAsSuccess := false }) :=
  clarify_then_followUp (initGateway Scenario.clarify) _ _ _ _ rfl rfl rfl

/-- Claim C2: in every reachable gateway state whose scenario is
networkError, processVoice fails with the NETWORK error and its fixed
message, and returns the state unchanged (the follow-up flag is neither
consumed nor armed).  Reachability matters: the reachability invariant
excludes an armed follow-up flag under this scenario. -/
theorem networkError_always_fails
    (st : GatewayState) (h : GReachable st) (hs : st.scenario = Scenario.networkError)
    (i : ProcessVoiceInput) (o : Oracle) :
    processVoice st i o =
      (Except.error { code := ErrorCode.NETWORK, message := "Network error. Please try again." },
       st) := by
  have hf : st.completeNextAsSuccess = false := by
    rcases hq : st.completeNextAsSuccess with _ | _
    · rfl
    · rcases greachable_flag_scenario h hq with hc | hc <;> rw [hs] at hc <;> exact absurd hc (by simp)
  unfold processVoice
  rw [hf]
  simp [hs]

/-- Witness for networkError_always_fails at a fresh networkError gateway. -/
theorem networkError_always_fails_witness :
    processVoice (initGateway Scenario.networkError)
        { audioUri := "file:///r.m4a", mimeType := "audio/m4a", clientTs := "", context := none }
        { transcriptIdx := 0, promptIdx := 0, liveIdx := 0,
          clarifyDraw := false, now := 0, nowIso := "" } =
      (Except.error { code := ErrorCode.NETWORK, message := "Network error. Please try again." },
       initGateway Scenario.networkError) :=
  networkError_always_fails (initGateway Scenario.networkError)
    (GReachable.init Scenario.networkError) rfl _ _

/-- Claim C7: with the scenario set to clarify and the follow-up flag
disarmed, a process call whose context carries selectedTime equal to
3:00 PM returns Ok with exactly the alarm transcript, no clarification,
and leaves the state (in particular the follow-up flag) unchanged. -/
theorem clarify_with_selectedTime
    (st : GatewayState) (i : ProcessVoiceInput) (o : Oracle)
    (hs : st.scenario = Scenario.clarify)
    (hf : st.completeNextAsSuccess = false)
    (hctx : i.context.bind (fun c => c.selectedTime) = some ("3:00 PM")) :
    processVoice st i o =
      (Except.ok (ProcessVoiceResult.ok ("Alarm set for 3:00 PM.")), st) := by
  unfold processVoice
  rw [hf]
  simp [hs, hctx]

/-- Witness for clarify_with_selectedTime at a concrete state and input. -/
theorem clarify_with_selectedTime_witness :
    processVoice (initGateway Scenario.clarify)
        { audioUri := "", mimeType := "text/plain", clientTs := "",
          context := some { previousPrompt := some ("What time should I set it for?"),
                            selectedTime := some ("3:00 PM") } }
        { transcriptIdx := 0, promptIdx := 0, liveIdx := 0,
          clarifyDraw := false, now := 0, nowIso := "" } =
      (Except.ok (ProcessVoiceResult.ok ("Alarm set for 3:00 PM.")),
       initGateway Scenario.clarify) :=
  clarify_with_selectedTime (initGateway Scenario.clarify) _ _ rfl rfl rfl

/-! ## Theorems on the capture session and the cancel path -/

/-- Claim C3: stopRecording fails exactly when there is no active
recording or when the finalized artifact is unusable (missing URI,
missing file, or zero size); every error is one of the three fixed
messages, and a normal return carries a URI whose file exists with
nonzero size. -/
theorem stopRecording_failure_modes (env : AudioEnv) (st : AudioState) :
    (st.recording = none →
        stopRecording env st = (Except.error ("No active recording"), st)) ∧
    (∀ e, (stopRecording env st).1 = Except.error e →
        e = "No active recording" ∨ e = "Recording file missing" ∨
          e = "Recorded file is missing or empty") ∧
    (∀ res, (stopRecording env st).1 = Except.ok res →
        (env.getInfo res.uri).fsExists = true ∧ (env.getInfo res.uri).size.getD 0 ≠ 0) ∧
    (∀ handle, st.recording = some handle →
        ((∃ res, (stopRecording env st).1 = Except.ok res) ↔
          ∃ uri, handle.uri = some uri ∧ uri ≠ "" ∧
            (env.getInfo uri).fsExists = true ∧ (env.getInfo uri).size.getD 0 ≠ 0)) := by
  rcases hrec : st.recording with _ | handle
  · refine ⟨fun _ => by simp [stopRecording, hrec], ?_, ?_, ?_⟩
    · intro e he
      simp [stopRecording, hrec] at he
      exact Or.inl he.symm
    · intro res hres
      simp [stopRecording, hrec] at hres
    · intro handle hh
      simp [hrec] at hh
  · refine ⟨fun hn => by simp [hrec] at hn, ?_, ?_, ?_⟩
    · intro e he
      rcases huri : handle.uri with _ | uri
      · simp [stopRecording, hrec, huri] at he
        exact Or.inr (Or.inl he.symm)
      · by_cases hblank : uri = ""
        · simp [stopRecording, hrec, huri, hblank] at he
          exact Or.inr (Or.inl he.symm)
        · by_cases hbad : (env.getInfo uri).fsExists = false ∨ (env.getInfo uri).size.getD 0 = 0
          · simp [stopRecording, hrec, huri, hblank, hbad] at he
            exact Or.inr (Or.inr he.symm)
          · simp [stopRecording, hrec, huri, hblank, hbad] at he
    · intro res hres
      rcases huri : handle.uri with _ | uri
      · simp [stopRecording, hrec, huri] at hres
      · by_cases hblank : uri = ""
        · simp [stopRecording, hrec, huri, hblank] at hres
        · by_cases hbad : (env.getInfo uri).fsExists = false ∨ (env.getInfo uri).size.getD 0 = 0
          · simp [stopRecording, hrec, huri, hblank, hbad] at hres
          · push_neg at hbad
            simp [stopRecording, hrec, huri, hblank, hbad] at hres
            subst hres
            exact ⟨by simpa using hbad.1, hbad.2⟩
    · intro handle₂ hh
      have hhe : handle = handle₂ := by simpa using hh
      subst hhe
      constructor
      · rintro ⟨res, hres⟩
        rcases huri : handle.uri with _ | uri
        · simp [stopRecording, hrec, huri] at hres
        · by_cases hblank : uri = ""
          · simp [stopRecording, hrec, huri, hblank] at hres
          · by_cases hbad : (env.getInfo uri).fsExists = false ∨ (env.getInfo uri).size.getD 0 = 0
            · simp [stopRecording, hrec, huri, hblank, hbad] at hres
            · push_neg at hbad
              exact ⟨uri, rfl, hblank, by simpa using hbad.1, hbad.2⟩
      · rintro ⟨uri, huri, hblank, hex, hsz⟩
        refine ⟨{ uri := uri, mimeType := RECORDING_MIME, duration := handle.durationMillis }, ?_⟩
        simp [stopRecording, hrec, huri, hblank, hex, hsz]

/-- Witness for stopRecording_failure_modes: the no-session error at an
idle service, and the verified artifact of a successful stop. -/
theorem stopRecording_failure_modes_witness :
    stopRecording envDemo { recording := none } =
      (Except.error ("No active recording"), { recording := none }) ∧
    ((envDemo.getInfo ("file:///rec.m4a")).fsExists = true ∧
      (envDemo.getInfo ("file:///rec.m4a")).size.getD 0 ≠ 0) :=
  ⟨(stopRecording_failure_modes envDemo { recording := none }).1 rfl,
   (stopRecording_failure_modes envDemo { recording := some handleDemo }).2.2.1
     { uri := "file:///rec.m4a", mimeType := RECORDING_MIME, duration := some 1234 } rfl⟩

/-- Claim C4: cancelRecording always clears the recording handle and
never raises (its type has no error case; every capability failure is
discarded), a second cancel is a no-op, and the controller cancel
handler always lands on the idle phase with the clarification prompt and
the error message cleared and live mode off, whatever the prior state
and whatever the environment does. -/
theorem cancel_idempotent_and_resets (env : AudioEnv) (st : AudioState) (s : SysState) :
    (cancelRecording env st).recording = none ∧
    cancelRecording env (cancelRecording env st) = cancelRecording env st ∧
    (st.recording = none → cancelRecording env st = st) ∧
    (handleCancel env s).ctrl.phase = UiState.idle ∧
    (handleCancel env s).ctrl.clarifyPrompt = none ∧
    (handleCancel env s).ctrl.errorMessage = none ∧
    (handleCancel env s).ctrl.liveMode = false := by
  have hid : ∀ x : AudioState, x.recording = none → cancelRecording env x = x := by
    intro x hx
    simp [cancelRecording, hx]
  have h1 : (cancelRecording env st).recording = none := by
    rcases h : st.recording with _ | handle <;> simp [cancelRecording, h]
  exact ⟨h1, hid _ h1, hid st, rfl, rfl, rfl, rfl⟩

/-- Witness for cancel_idempotent_and_resets: cancel on an idle service
is the identity, and the handler resets a fully populated error state. -/
theorem cancel_idempotent_and_resets_witness :
    cancelRecording envDemo { recording := none } = { recording := none } ∧
    (handleCancel envDemo sysDemo).ctrl.phase = UiState.idle :=
  ⟨(cancel_idempotent_and_resets envDemo { recording := none } sysDemo).2.2.1 rfl,
   (cancel_idempotent_and_resets envDemo { recording := none } sysDemo).2.2.2.1⟩

/-! ## Theorems on the stop handler -/

/-- Claim C8: whenever the stop handler receives an Ok result from the
gateway (file mode, successful stop, usable URI), it prepends the
transcript record to the history, clears any pending clarification
prompt, returns the phase to idle, and plays the success cue exactly
when the controller scenario is success. -/
theorem handleStop_gateway_ok
    (env : AudioEnv) (o : Oracle) (s : SysState)
    (res : StopResult) (audio₂ : AudioState) (t : String) (gw₂ : GatewayState)
    (hlive : s.ctrl.liveMode = false)
    (hstop : stopRecording env s.audio = (Except.ok res, audio₂))
    (huri : res.uri ≠ "")
    (hproc : processVoice s.gw (mkStopInput s.ctrl res o) o =
        (Except.ok (ProcessVoiceResult.ok t), gw₂)) :
    (handleStop env o s).sys.ctrl.phase = UiState.idle ∧
    (handleStop env o s).sys.ctrl.clarifyPrompt = none ∧
    (handleStop env o s).sys.ctrl.recordings =
      { transcript := t, uri := res.uri, timestamp := o.now,
        durationSec := res.duration.map roundToSec } :: s.ctrl.recordings ∧
    ((handleStop env o s).cuePlayed = true ↔ s.ctrl.scenario = Scenario.success) := by
  simp only [handleStop, hlive, Bool.false_eq_true, if_false, hstop, huri, ite_false, hproc]
  refine ⟨trivial, trivial, trivial, ?_⟩
  by_cases hsc : s.ctrl.scenario = Scenario.success <;> simp [hsc]

/-- Witness for handleStop_gateway_ok on the demo system: the first mock
transcript is prepended with a one-second duration and the cue plays. -/
theorem handleStop_gateway_ok_witness :
    (handleStop envDemo oracleDemo sysDemo).sys.ctrl.phase = UiState.idle ∧
    (handleStop envDemo oracleDemo sysDemo).sys.ctrl.clarifyPrompt = none ∧
    (handleStop envDemo oracleDemo sysDemo).sys.ctrl.recordings =
      { transcript := "Hey, remind me to call Alex tomorrow at 3 PM.",
        uri := "file:///rec.m4a", timestamp := 0,
        durationSec := (some 1234).map roundToSec } :: [] ∧
    ((handleStop envDemo oracleDemo sysDemo).cuePlayed = true ↔
      sysDemo.ctrl.scenario = Scenario.success) :=
  handleStop_gateway_ok envDemo oracleDemo sysDemo
    { uri := "file:///rec.m4a", mimeType := RECORDING_MIME, duration := some 1234 }
    { recording := none }
    ("Hey, remind me to call Alex tomorrow at 3 PM.")
    (initGateway Scenario.success)
    rfl rfl (by decide) rfl

/-! ## Theorems on the waveform buffer -/

/-- Claim C6: starting from the empty buffer, the tick buffer always
holds the last WAVE_POINTS samples in chronological order — so it never
exceeds the capacity, and a push on a full buffer evicts exactly the
front (oldest) sample. -/
theorem waveform_buffer_fifo (samples : List (ℚ × ℚ)) (buf : List (ℚ × ℚ)) (x : ℚ × ℚ) :
    runTicks samples = samples.drop (samples.length - WAVE_POINTS) ∧
    (runTicks samples).length ≤ WAVE_POINTS ∧
    (buf.length = WAVE_POINTS → pushSample buf x = buf.tail ++ [x]) := by
  have hchar : ∀ l : List (ℚ × ℚ), runTicks l = l.drop (l.length - WAVE_POINTS) := by
    intro l
    induction l using List.reverseRecOn with
    | nil => rfl
    | append_singleton l a ih =>
      have hstep : runTicks (l ++ [a]) = pushSample (runTicks l) a := by
        simp [runTicks, List.foldl_append]
      rw [hstep, ih]
      by_cases hlen : l.length < WAVE_POINTS
      · have h0 : l.length - WAVE_POINTS = 0 := by omega
        have h1 : (l ++ [a]).length - WAVE_POINTS = 0 := by
          simp only [List.length_append, List.length_singleton]
          omega
        rw [h0, h1, List.drop_zero, List.drop_zero]
        have hnot : ¬ WAVE_POINTS < (l ++ [a]).length := by
          simp only [List.length_append, List.length_singleton]
          omega
        show (if WAVE_POINTS < (l ++ [a]).length then (l ++ [a]).tail else (l ++ [a])) = l ++ [a]
        rw [if_neg hnot]
      · push_neg at hlen
        have hdlen : (l.drop (l.length - WAVE_POINTS)).length = WAVE_POINTS := by
          rw [List.length_drop]
          omega
        have hgt : WAVE_POINTS < (l.drop (l.length - WAVE_POINTS) ++ [a]).length := by
          rw [List.length_append, hdlen]
          simp
        rw [pushSample]
        simp only [hgt, if_true, ite_true]
        have htl : (l.drop (l.length - WAVE_POINTS) ++ [a]).tail =
            (l.drop (l.length - WAVE_POINTS)).tail ++ [a] := by
          apply List.tail_append_singleton_of_ne_nil
          intro hnil
          rw [hnil] at hdlen
          simp [WAVE_POINTS] at hdlen
        rw [htl, List.tail_drop]
        have harith : l.length - WAVE_POINTS + 1 = (l ++ [a]).length - WAVE_POINTS := by
          simp only [List.length_append, List.length_singleton]
          omega
        rw [harith, List.drop_append_of_le_length]
        simp only [List.length_append, List.length_singleton, WAVE_POINTS]
        omega
  refine ⟨hchar samples, ?_, ?_⟩
  · rw [hchar samples, List.length_drop]
    omega
  · intro hfull
    rw [pushSample]
    have hgt : WAVE_POINTS < (buf ++ [x]).length := by
      rw [List.length_append, hfull]
      simp
    simp only [hgt, ite_true]
    apply List.tail_append_singleton_of_ne_nil
    intro hnil
    rw [hnil] at hfull
    simp [WAVE_POINTS] at hfull

/-- Witness for waveform_buffer_fifo: sixty-one pushes of the sample
(1, 440) keep sixty of them, and a push on that full buffer evicts the
front sample. -/
theorem waveform_buffer_fifo_witness :
    (runTicks (List.replicate 61 ((1 : ℚ), (440 : ℚ)))).length ≤ WAVE_POINTS ∧
    pushSample (List.replicate 60 ((1 : ℚ), (440 : ℚ))) ((0 : ℚ), (0 : ℚ)) =
      (List.replicate 60 ((1 : ℚ), (440 : ℚ))).tail ++ [((0 : ℚ), (0 : ℚ))] :=
  ⟨(waveform_buffer_fifo (List.replicate 61 ((1 : ℚ), (440 : ℚ)))
      (List.replicate 60 ((1 : ℚ), (440 : ℚ))) ((0 : ℚ), (0 : ℚ))).2.1,
   (waveform_buffer_fifo (List.replicate 61 ((1 : ℚ), (440 : ℚ)))
      (List.replicate 60 ((1 : ℚ), (440 : ℚ))) ((0 : ℚ), (0 : ℚ))).2.2 (by simp [WAVE_POINTS])⟩

/-! ## Theorems on the amplitude normalization -/

/-- Counterexample to claim C9: at the metering level 160 the code
produces the amplitude 2 while the clamped conversion the claim
describes produces 1, so the produced amplitude is not clamped to the
unit interval and escapes it. -/
theorem amplitude_not_upper_clamped :
    normalizedMeterOf 160 = 2 ∧ specClampedAmplitude 160 = 1 ∧
    ¬ normalizedMeterOf 160 ≤ 1 := by
  norm_num [normalizedMeterOf, specClampedAmplitude]

/-- Claim C9 amended: the produced amplitude is (metering + 160) / 160
clamped below at 0 only; it is always nonnegative, and whenever the
metering level is at most 0 (the nominal decibel range) it agrees with
the fully clamped conversion and lies in the unit interval. -/
theorem amplitude_clamped_below (m : ℚ) :
    0 ≤ normalizedMeterOf m ∧
    (m ≤ 0 → normalizedMeterOf m = specClampedAmplitude m ∧ normalizedMeterOf m ≤ 1) := by
  constructor
  · exact le_max_left 0 ((m + 160) / 160)
  · intro hm
    have hx : (m + 160) / 160 ≤ 1 := by
      rw [div_le_one (by norm_num : (0 : ℚ) < 160)]
      linarith
    have hmax : max 0 ((m + 160) / 160) ≤ 1 := max_le (by norm_num) hx
    constructor
    · rw [normalizedMeterOf, specClampedAmplitude, min_eq_right hmax]
    · exact hmax

/-- Witness for amplitude_clamped_below at the metering level -80. -/
theorem amplitude_clamped_below_witness :
    0 ≤ normalizedMeterOf (-80) ∧
    (normalizedMeterOf (-80) = specClampedAmplitude (-80) ∧ normalizedMeterOf (-80) ≤ 1) :=
  ⟨(amplitude_clamped_below (-80)).1, (amplitude_clamped_below (-80)).2 (by norm_num)⟩

/-! ## Theorems on the pitch estimator -/

/-- Helper: the frequency guard only lets through values that are
strictly positive and at most 5000. -/
theorem pitchGuard_some {x f : ℚ} (h : pitchGuard x = some f) : 0 < f ∧ f ≤ 5000 := by
  unfold pitchGuard at h
  split_ifs at h with hc
  push_neg at hc
  cases h
  exact hc

/-- Helper: the dip scan never moves more than its fuel. -/
theorem findDipAux_le (c : List ℚ) : ∀ k d, findDipAux c k d ≤ d + k := by
  intro k
  induction k with
  | zero => intro d; simp [findDipAux]
  | succ n ih =>
    intro d
    rcases hx : c.get? d with _ | x
    · simp only [findDipAux, hx]
      omega
    · rcases hy : c.get? (d + 1) with _ | y
      · simp only [findDipAux, hx, hy]
        omega
      · simp only [findDipAux, hx, hy]
        split_ifs
        · have := ih (d + 1)
          omega
        · omega

/-- Helper: once the fuel covers the remaining length of the array, the
dip scan's answer no longer depends on the fuel — the while loop of the
source has already stopped on its own, at the latest at the end of the
array where the comparison with an absent value fails. -/
theorem findDipAux_stable (c : List ℚ) :
    ∀ k₁ k₂ d, c.length - d ≤ k₁ → c.length - d ≤ k₂ →
      findDipAux c k₁ d = findDipAux c k₂ d := by
  intro k₁
  induction k₁ with
  | zero =>
    intro k₂ d h1 h2
    have hnone : c.get? d = none := by
      rw [List.get?_eq_none]
      omega
    rcases k₂ with _ | m
    · rfl
    · simp only [findDipAux, hnone]
  | succ n ih =>
    intro k₂ d h1 h2
    rcases hx : c.get? d with _ | x
    · rcases k₂ with _ | m <;> simp only [findDipAux, hx]
    · rcases hy : c.get? (d + 1) with _ | y
      · rcases k₂ with _ | m <;> simp only [findDipAux, hx, hy]
      · have hlt : d + 1 < c.length := by
          rcases List.get?_eq_some.mp hy with ⟨hl, _⟩
          exact hl
        rcases k₂ with _ | m
        · omega
        · simp only [findDipAux, hx, hy]
          split_ifs
          · exact ih m (d + 1) (by omega) (by omega)
          · rfl

/-- Helper: an out-of-bounds read on either side of the peak leaves the
parabolic refinement inert, exactly as the source's non-numeric
coefficient guard does. -/
theorem refineT0_boundary (c : List ℚ) (p : Int)
    (h : cgetI c (p - 1) = none ∨ cgetI c (p + 1) = none) :
    refineT0 c p = (p : ℚ) := by
  rcases h with h | h
  · simp only [refineT0, h]
  · rcases h1 : cgetI c (p - 1) with _ | v1
    · simp only [refineT0, h1]
    · rcases h2 : cgetI c p with _ | v2
      · simp only [refineT0, h1, h2]
      · simp only [refineT0, h1, h2, h]

/-- Helper: the core pipeline only returns frequencies the final guard
accepts. -/
theorem autoCorrelateCore_some {buffer : List ℚ} {sampleRate f : ℚ}
    (h : autoCorrelateCore buffer sampleRate = some f) : 0 < f ∧ f ≤ 5000 := by
  simp only [autoCorrelateCore] at h
  split_ifs at h with hz
  exact pitchGuard_some h

/-- Claim C5: autoCorrelate returns undetected (none) whenever the rms
of a nonempty buffer is below the 0.01 silence threshold (stated on the
squared rms against 1/10000; see the section comment), and any frequency
it returns is strictly positive and at most 5000 (finiteness is
intrinsic to the rational model). -/
theorem autoCorrelate_silence_and_range (buffer : List ℚ) (sampleRate : ℚ) :
    (0 < buffer.length → rmsSq buffer < 1 / 10000 →
        autoCorrelate buffer sampleRate = none) ∧
    (∀ f, autoCorrelate buffer sampleRate = some f → 0 < f ∧ f ≤ 5000) := by
  constructor
  · intro h1 h2
    unfold autoCorrelate
    rw [if_pos ⟨h1, h2⟩]
  · intro f hf
    unfold autoCorrelate at hf
    split_ifs at hf with hc
    exact autoCorrelateCore_some hf

/-- Witness for autoCorrelate_silence_and_range: a silent three-sample
buffer is rejected, and on an alternating window at rate 100 the
estimator returns 2000/41, which the theorem places in the accepted
range. -/
theorem autoCorrelate_silence_and_range_witness :
    autoCorrelate [0, 0, 0] 44100 = none ∧
    (0 < (2000 / 41 : ℚ) ∧ (2000 / 41 : ℚ) ≤ 5000) := by
  constructor
  · exact (autoCorrelate_silence_and_range [0, 0, 0] 44100).1 (by norm_num)
      (by norm_num [rmsSq])
  · refine (autoCorrelate_silence_and_range [1, -1, 1, -1, 1, -1, 1, -1] 100).2
      (2000 / 41) ?_
    have h1 : trimmedBuffer [1, -1, 1, -1, 1, -1, 1, -1] = [1, -1, 1, -1, 1, -1, 1] := by
      norm_num [trimmedBuffer, trimFrontIndex, trimBackIndex, thres, List.find?]
    have h2 : autocorrSeq [1, -1, 1, -1, 1, -1, 1] = [7, -6, 5, -4, 3, -2, 1] := by
      norm_num [autocorrSeq, List.range_succ]
    have h3 : findDip [7, -6, 5, -4, 3, -2, 1] = 1 := by
      norm_num [findDip, findDipAux]
    have h4 : maxScan [7, -6, 5, -4, 3, -2, 1] 1 = (5, 2) := by
      norm_num [maxScan, List.range', List.foldl]
    have h5 : refineT0 [7, -6, 5, -4, 3, -2, 1] 2 = 41 / 20 := by
      have e1 : cgetI [7, -6, 5, -4, 3, -2, 1] (2 - 1) = some (-6) := rfl
      have e2 : cgetI [7, -6, 5, -4, 3, -2, 1] 2 = some 5 := rfl
      have e3 : cgetI [7, -6, 5, -4, 3, -2, 1] (2 + 1) = some (-4) := rfl
      rw [refineT0, e1, e2, e3]
      norm_num
    have hrms : ¬ (0 < ([1, -1, 1, -1, 1, -1, 1, -1] : List ℚ).length ∧
        rmsSq [1, -1, 1, -1, 1, -1, 1, -1] < 1 / 10000) := by
      norm_num [rmsSq]
    rw [autoCorrelate, if_neg hrms]
    simp only [autoCorrelateCore]
    rw [h1, h2, h3, h4]
    show (if (2 : Int) = 0 then none
        else pitchGuard ((100 : ℚ) / refineT0 [7, -6, 5, -4, 3, -2, 1] 2)) =
      some (2000 / 41)
    rw [h5]
    norm_num [pitchGuard]

/-- Claim C10: totality and bounds-safety of the estimator in the
embedding.  Every Lean definition here is total, so autoCorrelate always
yields none or some value; substantively, the source's unbounded while
scan stops by the end of the autocorrelation array (its answer is stable
under any fuel of at least the array length and never exceeds the
length), and the parabolic-interpolation reads at lag minus one and lag
plus one are neutralized at the array boundary by the non-numeric
coefficient guard. -/
theorem autoCorrelate_total_and_safe (buffer : List ℚ) (sampleRate : ℚ) :
    (∀ k, (autocorrSeq (trimmedBuffer buffer)).length ≤ k →
        findDipAux (autocorrSeq (trimmedBuffer buffer)) k 0 =
          findDip (autocorrSeq (trimmedBuffer buffer))) ∧
    findDip (autocorrSeq (trimmedBuffer buffer)) ≤
      (autocorrSeq (trimmedBuffer buffer)).length ∧
    (∀ p : Int, cgetI (autocorrSeq (trimmedBuffer buffer)) (p - 1) = none ∨
        cgetI (autocorrSeq (trimmedBuffer buffer)) (p + 1) = none →
        refineT0 (autocorrSeq (trimmedBuffer buffer)) p = (p : ℚ)) ∧
    (autoCorrelate buffer sampleRate = none ∨
      ∃ f, autoCorrelate buffer sampleRate = some f) := by
  refine ⟨?_, ?_, ?_, ?_⟩
  · intro k hk
    exact findDipAux_stable (autocorrSeq (trimmedBuffer buffer)) k
      (autocorrSeq (trimmedBuffer buffer)).length 0 (by omega) (by omega)
  · have := findDipAux_le (autocorrSeq (trimmedBuffer buffer))
      (autocorrSeq (trimmedBuffer buffer)).length 0
    simpa [findDip] using this
  · intro p hp
    exact refineT0_boundary (autocorrSeq (trimmedBuffer buffer)) p hp
  · rcases h : autoCorrelate buffer sampleRate with _ | f
    · exact Or.inl rfl
    · exact Or.inr ⟨f, rfl⟩

/-- Witness for autoCorrelate_total_and_safe on the alternating window:
fuel nine agrees with the scan, and the refinement at the out-of-bounds
peak position seven is inert. -/
theorem autoCorrelate_total_and_safe_witness :
    findDipAux (autocorrSeq (trimmedBuffer [1, -1, 1, -1, 1, -1, 1, -1])) 9 0 =
      findDip (autocorrSeq (trimmedBuffer [1, -1, 1, -1, 1, -1, 1, -1])) ∧
    refineT0 (autocorrSeq (trimmedBuffer [1, -1, 1, -1, 1, -1, 1, -1])) 7 = ((7 : Int) : ℚ) := by
  have h1 : trimmedBuffer [1, -1, 1, -1, 1, -1, 1, -1] = [1, -1, 1, -1, 1, -1, 1] := by
    norm_num [trimmedBuffer, trimFrontIndex, trimBackIndex, thres, List.find?]
  have h2 : autocorrSeq [1, -1, 1, -1, 1, -1, 1] = [7, -6, 5, -4, 3, -2, 1] := by
    norm_num [autocorrSeq, List.range_succ]
  constructor
  · exact (autoCorrelate_total_and_safe [1, -1, 1, -1, 1, -1, 1, -1] 100).1 9
      (by rw [h1, h2]; norm_num)
  · exact (autoCorrelate_total_and_safe [1, -1, 1, -1, 1, -1, 1, -1] 100).2.2.1 7
      (Or.inr (by rw [h1, h2]; norm_num [cgetI]))
